import Mathlib

/-! AquamanV3 frontend: session controller and view derivations.

A shallow embedding of the chat frontend:

* `App.jsx`: the session controller (`handleSendMessage`), its state
  (`messages`, `isLoading`, `layoutMode`) and the backend address constants;
* `ChatInput.jsx`: the submit guard (`handleSubmit`);
* `MapView.jsx`: `toNum` and the derived `points` list;
* `VisualizationColumn.jsx`: `latestVizMsg` and the table rendering.

JavaScript values are a small inductive type; the language operators the
source uses (`||`, `??`, `?.`, property read, object spread) are defined once
and used by the translated functions.
-/

namespace AquamanV3

/-! ## JavaScript values and operators -/

/-- A JavaScript number: not-a-number, the two infinities, or a finite value.
Finite values are kept as rationals (signed zero is not distinguished). -/
inductive JsNum where
  | nan : JsNum
  | posInf : JsNum
  | negInf : JsNum
  | fin (q : ℚ) : JsNum
deriving DecidableEq

/-- A JavaScript value as produced by parsing a JSON body, plus `undefined`.
An object is its own properties in enumeration order. A string is a sequence
of Unicode characters; `half u` is the one-unit string made of the surrogate
half `u`, which arises only when a string with a character above U+FFFF is
read unit by unit. -/
inductive JsVal where
  | undefined : JsVal
  | null : JsVal
  | bool (b : Bool) : JsVal
  | num (n : JsNum) : JsVal
  | str (s : String) : JsVal
  | half (u : Nat) : JsVal
  | arr (items : List JsVal) : JsVal
  | obj (props : List (String × JsVal)) : JsVal

/-- An exception value: what a rejected request or a failing render carries.
`message` is the `message` property when it is a string, `none` when the
thrown value has no such property. -/
structure JsError where
  message : Option String
deriving DecidableEq

/-- The error raised by the engine when a value is used as an object or as a
function and is not one. -/
def typeError : JsError := ⟨some "TypeError"⟩

/-- ToBoolean on numbers: zero and NaN are falsy. -/
def JsNum.truthy : JsNum → Bool
  | .nan => false
  | .posInf => true
  | .negInf => true
  | .fin q => decide (q ≠ 0)

/-- ToBoolean. -/
def truthy : JsVal → Bool
  | .undefined => false
  | .null => false
  | .bool b => b
  | .num n => n.truthy
  | .str s => decide (s ≠ "")
  | .half _ => true
  | .arr _ => true
  | .obj _ => true

/-- The test `v === null || v === undefined`. -/
def isNullish : JsVal → Bool
  | .undefined => true
  | .null => true
  | _ => false

/-- The operator `a || b`. -/
def jsOr (a b : JsVal) : JsVal := if truthy a then a else b

/-- The operator `a ?? b`. -/
def nullishOr (a b : JsVal) : JsVal := if isNullish a then b else a

/-- Own-property lookup in a property list. -/
def lookupProp (k : String) : List (String × JsVal) → JsVal
  | [] => .undefined
  | (k', v) :: rest => if k' = k then v else lookupProp k rest

/-- The read `v.k` for a named property `k` that no built-in prototype
defines (`data`, `output`, `table_data`, `geo_data`, `sql_query`, `latitude`,
`lat`, `longitude`, `lng`, `lon`): an object yields its own property, every
other value yields `undefined`. -/
def getProp (v : JsVal) (k : String) : JsVal :=
  match v with
  | .obj props => lookupProp k props
  | _ => .undefined

/-- The read `v?.k`: `undefined` when `v` is `null` or `undefined`. -/
def optProp (v : JsVal) (k : String) : JsVal :=
  if isNullish v then .undefined else getProp v k

/-- Writing property `k` in an object literal: an existing key keeps its
position and takes the new value, a new key goes last. -/
def setProp (k : String) (v : JsVal) : List (String × JsVal) → List (String × JsVal)
  | [] => [(k, v)]
  | (k', v') :: rest => if k' = k then (k, v) :: rest else (k', v') :: setProp k v rest

/-- Index keys `start, start+1, ...` paired with the given values. -/
def indexed (start : Nat) : List JsVal → List (String × JsVal)
  | [] => []
  | v :: rest => (toString start, v) :: indexed (start + 1) rest

/-- The UTF-16 units of a character sequence, each as a one-unit string: a
character up to U+FFFF is one unit, a character above it is a high and a low
surrogate half. -/
def codeUnits : List Char → List JsVal
  | [] => []
  | c :: rest =>
    if c.toNat < 0x10000 then
      .str (String.mk [c]) :: codeUnits rest
    else
      .half (0xD800 + (c.toNat - 0x10000) / 0x400)
        :: .half (0xDC00 + (c.toNat - 0x10000) % 0x400) :: codeUnits rest

/-- The own enumerable properties copied by the spread `{...v}`: of a string,
its units under the index keys. -/
def spreadProps : JsVal → List (String × JsVal)
  | .obj props => props
  | .arr items => indexed 0 items
  | .str s => indexed 0 (codeUnits s.data)
  | .half u => [("0", .half u)]
  | _ => []

/-- The read `v[0]`: of a string, its first unit. -/
def firstElem : JsVal → JsVal
  | .arr (x :: _) => x
  | .arr [] => .undefined
  | .str s =>
    match codeUnits s.data with
    | x :: _ => x
    | [] => .undefined
  | .half u => .half u
  | .obj props => lookupProp "0" props
  | _ => .undefined

/-- Conversions of the host engine that the source calls and does not define:
the numeric value of a string, and `String(v)`. -/
structure Host where
  stringToNumber : String → JsNum
  toStr : JsVal → String

/-- The call `Number(v)`. -/
def jsNumber (host : Host) : JsVal → JsNum
  | .undefined => .nan
  | .null => .fin 0
  | .bool true => .fin 1
  | .bool false => .fin 0
  | .num n => n
  | .str s => host.stringToNumber s
  | .half _ => .nan
  | .arr items => host.stringToNumber (host.toStr (.arr items))
  | .obj props => host.stringToNumber (host.toStr (.obj props))

/-- The call `Number.isFinite(v)`. -/
def numberIsFinite : JsVal → Bool
  | .num (.fin _) => true
  | _ => false

/-- `Object.keys(v)`; a `TypeError` on `undefined` and `null`. -/
def objectKeys (v : JsVal) : Except JsError (List String) :=
  match v with
  | .undefined => .error typeError
  | .null => .error typeError
  | w => .ok ((spreadProps w).map Prod.fst)

/-- `Object.values(v)`; a `TypeError` on `undefined` and `null`. -/
def objectValues (v : JsVal) : Except JsError (List JsVal) :=
  match v with
  | .undefined => .error typeError
  | .null => .error typeError
  | w => .ok ((spreadProps w).map Prod.snd)

/-! ## App.jsx -/

/-- The fallback of line 11. -/
def defaultApiBase : String := "http://127.0.0.1:8000"

/-- `API_BASE = import.meta.env.VITE_API_BASE || 'http://127.0.0.1:8000'`;
the argument is the environment setting, `none` when unset. -/
def API_BASE (viteApiBase : Option String) : String :=
  match viteApiBase with
  | some v => if v ≠ "" then v else defaultApiBase
  | none => defaultApiBase

/-- The chat endpoint, `API_BASE` followed by `/chat`. -/
def API_URL (viteApiBase : Option String) : String :=
  API_BASE viteApiBase ++ "/chat"

/-- The `role` of a message. -/
inductive Role where
  | user : Role
  | assistant : Role
deriving DecidableEq

/-- A message object. A property the object literal does not write reads as
`undefined`. -/
structure Message where
  role : Role
  content : JsVal
  table_data : JsVal := .undefined
  geo_data : JsVal := .undefined
  sql_query : JsVal := .undefined

/-- The two layout modes of line 18. -/
inductive LayoutMode where
  | initial : LayoutMode
  | dashboard : LayoutMode
deriving DecidableEq

/-- The three `useState` cells of `App`. -/
structure AppState where
  messages : List Message
  isLoading : Bool
  layoutMode : LayoutMode

/-- The state at mount: lines 15, 16 and 18. -/
def AppState.init : AppState :=
  { messages := [], isLoading := false, layoutMode := .initial }

/-- How `await axios.post(...)` ends: resolved with a response whose `data`
is the given value, or rejected with an error. -/
inductive Outcome where
  | resolved (data : JsVal) : Outcome
  | rejected (error : JsError) : Outcome

/-- The placeholder of line 37. -/
def noResponseText : String := "No response text from backend."

/-- Line 21. -/
def userMessage (prompt : String) : Message :=
  { role := .user, content := .str prompt }

/-- Line 32: `response.data?.data ?? response.data`. -/
def extractPayload (data : JsVal) : JsVal :=
  nullishOr (optProp data "data") data

/-- Lines 33 to 41: destructure `payload || {}` and build the message. -/
def buildAssistantMessage (payload : JsVal) : Message :=
  let src := jsOr payload (.obj [])
  let output := getProp src "output"
  let table_data := getProp src "table_data"
  let geo_data := getProp src "geo_data"
  let sql_query := getProp src "sql_query"
  { role := .assistant
    content := jsOr output (.str noResponseText)
    table_data := jsOr table_data .null
    geo_data := jsOr geo_data .null
    sql_query := jsOr sql_query (.str "") }

/-- Lines 32 to 41 from the response body. -/
def assistantMessage (data : JsVal) : Message :=
  buildAssistantMessage (extractPayload data)

/-- The text `error?.message || ''` of line 49. -/
def errorDescription (error : JsError) : String :=
  match error.message with
  | some m => if m ≠ "" then m else ""
  | none => ""

/-- Lines 47 to 50. -/
def errorMessage (viteApiBase : Option String) (error : JsError) : Message :=
  { role := .assistant
    content := .str ("Error: Could not connect to the backend at " ++ API_URL viteApiBase
      ++ ". " ++ errorDescription error) }

/-- Lines 21 to 27, the part of `handleSendMessage` before the `await`.
`layoutMode` is the value of the render the call was made from, taken here to
be the current one; the updater of line 22 appends to the current log. -/
def beforeAwait (prompt : String) (s : AppState) : AppState :=
  { messages := s.messages ++ [userMessage prompt]
    isLoading := true
    layoutMode := if s.layoutMode = .initial then .dashboard else s.layoutMode }

/-- The `try` block, lines 30 to 43: a rejected request throws. -/
def tryBlock (outcome : Outcome) (s : AppState) : Except JsError AppState :=
  match outcome with
  | .rejected error => .error error
  | .resolved data => .ok { s with messages := s.messages ++ [assistantMessage data] }

/-- The `catch` block, lines 45 to 51. -/
def catchBlock (viteApiBase : Option String) (error : JsError) (s : AppState) : AppState :=
  { s with messages := s.messages ++ [errorMessage viteApiBase error] }

/-- The `finally` block, line 53. -/
def finallyBlock (s : AppState) : AppState :=
  { s with isLoading := false }

/-- Lines 29 to 54, the part of `handleSendMessage` after the request
settles: `try`, `catch`, `finally`. An `error` result is an exception leaving
`handleSendMessage`. -/
def afterAwait (viteApiBase : Option String) (outcome : Outcome) (s : AppState) :
    Except JsError AppState :=
  match tryBlock outcome s with
  | .ok s' => .ok (finallyBlock s')
  | .error e => .ok (finallyBlock (catchBlock viteApiBase e s))

/-- One call of `handleSendMessage`, lines 20 to 55, run to completion with
the given backend outcome. -/
def handleSendMessage (viteApiBase : Option String) (prompt : String) (outcome : Outcome)
    (s : AppState) : Except JsError AppState :=
  afterAwait viteApiBase outcome (beforeAwait prompt s)

/-- What can happen to the controller: a call of `handleSendMessage` reaches
its `await`, or a pending request settles. -/
inductive Event where
  | submit (prompt : String) : Event
  | settle (outcome : Outcome) : Event

/-- The state after one event; an exception leaves the state as it is. -/
def step (viteApiBase : Option String) (s : AppState) : Event → AppState
  | .submit prompt => beforeAwait prompt s
  | .settle outcome =>
    match afterAwait viteApiBase outcome s with
    | .ok s' => s'
    | .error _ => s

/-- The state after a sequence of events, oldest first. -/
def run (viteApiBase : Option String) (s : AppState) (events : List Event) : AppState :=
  events.foldl (step viteApiBase) s

/-- Whether an event is a submit. -/
def Event.isSubmit : Event → Bool
  | .submit _ => true
  | .settle _ => false

/-! ## ChatInput.jsx -/

/-- The code points `String.prototype.trim` removes: white space and line
terminators. -/
def isTrimChar (c : Char) : Bool :=
  c.toNat ∈ [0x9, 0xA, 0xB, 0xC, 0xD, 0x20, 0xA0, 0x1680, 0x2000, 0x2001, 0x2002, 0x2003,
    0x2004, 0x2005, 0x2006, 0x2007, 0x2008, 0x2009, 0x200A, 0x2028, 0x2029, 0x202F, 0x205F,
    0x3000, 0xFEFF]

/-- The method `s.trim()`. -/
def trim (s : String) : String :=
  String.mk ((s.data.dropWhile isTrimChar).reverse.dropWhile isTrimChar).reverse

/-- Lines 8 to 14 of `ChatInput.jsx`. The callback `onSendMessage` acts on
the surroundings `w`; the result is the surroundings and the input cell. -/
def ChatInput.handleSubmit {σ : Type} (onSendMessage : String → σ → σ) (isLoading : Bool)
    (input : String) (w : σ) : σ × String :=
  if truthy (.str (trim input)) && !isLoading then
    (onSendMessage input w, "")
  else
    (w, input)

/-- A callback that records its argument. -/
def recordCall (prompt : String) (calls : List String) : List String :=
  calls ++ [prompt]

/-! ## MapView.jsx -/

/-- Line 14: `v === null || v === undefined || v === '' ? NaN : Number(v)`. -/
def toNum (host : Host) (v : JsVal) : JsNum :=
  match v with
  | .null => .nan
  | .undefined => .nan
  | .str s => if s = "" then .nan else jsNumber host (.str s)
  | w => jsNumber host w

/-- The value `r?.latitude ?? r?.lat` of line 21. -/
def rawLatitude (r : JsVal) : JsVal :=
  nullishOr (optProp r "latitude") (optProp r "lat")

/-- The value `r?.longitude ?? r?.lng ?? r?.lon` of line 22. -/
def rawLongitude (r : JsVal) : JsVal :=
  nullishOr (nullishOr (optProp r "longitude") (optProp r "lng")) (optProp r "lon")

/-- Lines 19 to 23: the record spread, then `latitude` and `longitude`
written with the converted numbers. -/
def normalizeRecord (host : Host) (r : JsVal) : JsVal :=
  .obj (setProp "longitude" (.num (toNum host (rawLongitude r)))
    (setProp "latitude" (.num (toNum host (rawLatitude r))) (spreadProps r)))

/-- The filter predicate of line 24. -/
def hasFiniteCoords (p : JsVal) : Bool :=
  numberIsFinite (getProp p "latitude") && numberIsFinite (getProp p "longitude")

/-- Lines 17 to 25: `(geoData || []).map(...).filter(...)`. A truthy value
that is not an array has no `map` method. -/
def points (host : Host) (geoData : JsVal) : Except JsError (List JsVal) :=
  match jsOr geoData (.arr []) with
  | .arr records => .ok ((records.map (normalizeRecord host)).filter hasFiniteCoords)
  | _ => .error typeError

/-! ## VisualizationColumn.jsx -/

/-- The test of line 14. -/
def isVisualizable (msg : Message) : Bool :=
  decide (msg.role = .assistant) && truthy (jsOr msg.geo_data msg.table_data)

/-- The loop of lines 12 to 17 with `i + 1 = k` still to visit. -/
def scanBack (messages : List Message) : Nat → Option Message
  | 0 => none
  | i + 1 =>
    match messages[i]? with
    | some msg => if isVisualizable msg then some msg else scanBack messages i
    | none => scanBack messages i

/-- Lines 11 to 19; `none` is the `null` of line 18. -/
def latestVizMsg (messages : List Message) : Option Message :=
  scanBack messages messages.length

/-- The rendered table: header cells and body rows. -/
structure TableView where
  columns : List String
  rows : List (List String)
deriving DecidableEq

/-- Line 75 for one row: `Object.values(row).map(val => String(val))`. -/
def renderRow (host : Host) (row : JsVal) : Except JsError (List String) :=
  match objectValues row with
  | .ok vals => .ok (vals.map host.toStr)
  | .error e => .error e

/-- Lines 73 to 77 over the rows, first to last. -/
def renderRows (host : Host) : List JsVal → Except JsError (List (List String))
  | [] => .ok []
  | row :: rest =>
    match renderRow host row with
    | .error e => .error e
    | .ok cells =>
      match renderRows host rest with
      | .error e => .error e
      | .ok more => .ok (cells :: more)

/-- Lines 68 to 79: the header from `Object.keys(table_data[0])`, then the
body from `table_data.map(...)`. A value that is not an array has no `map`
method. -/
def renderTable (host : Host) (table_data : JsVal) : Except JsError TableView :=
  match objectKeys (firstElem table_data) with
  | .error e => .error e
  | .ok columns =>
    match table_data with
    | .arr rows =>
      match renderRows host rows with
      | .ok body => .ok { columns := columns, rows := body }
      | .error e => .error e
    | _ => .error typeError

/-- What the column shows: the loading skeleton (lines 30 to 45), the empty
hint (lines 47 to 49), or the panels of the latest visualizable message
(lines 51 to 105). -/
inductive VizView where
  | skeleton : VizView
  | hint : VizView
  | panels (map : Option (List JsVal)) (table : Option TableView) (sql : Option JsVal) : VizView

/-- Lines 53 to 58: the map panel, present when `geo_data` is truthy. -/
def mapPanel (host : Host) (msg : Message) : Except JsError (Option (List JsVal)) :=
  if truthy msg.geo_data then
    match points host msg.geo_data with
    | .ok ps => .ok (some ps)
    | .error e => .error e
  else .ok none

/-- Lines 59 to 82: the table panel, present when `table_data` is truthy. -/
def tablePanel (host : Host) (msg : Message) : Except JsError (Option TableView) :=
  if truthy msg.table_data then
    match renderTable host msg.table_data with
    | .ok t => .ok (some t)
    | .error e => .error e
  else .ok none

/-- Lines 83 to 103: the query panel, present when `sql_query` is truthy. -/
def sqlPanel (msg : Message) : Option JsVal :=
  if truthy msg.sql_query then some msg.sql_query else none

/-- The render of `VisualizationColumn`, lines 21 to 107. -/
def renderColumn (host : Host) (messages : List Message) (isLoading : Bool) :
    Except JsError VizView :=
  if isLoading then .ok .skeleton
  else
    match latestVizMsg messages with
    | none => .ok .hint
    | some msg =>
      match mapPanel host msg with
      | .error e => .error e
      | .ok m =>
        match tablePanel host msg with
        | .error e => .error e
        | .ok t => .ok (.panels m t (sqlPanel msg))

/-! ## Notions used to state the properties -/

/-- The finite value of a number, if it has one: none for NaN and for the
infinities. -/
def JsNum.finite? : JsNum → Option ℚ
  | .fin q => some q
  | .nan => none
  | .posInf => none
  | .negInf => none

/-- The property `k` of a record when the record has it: an own property of
an object, with a value other than `null` and `undefined`. -/
def presentField (r : JsVal) (k : String) : Option JsVal :=
  match r with
  | .obj props =>
    match props.lookup k with
    | some .undefined => none
    | some .null => none
    | found => found
  | _ => none

/-- The value of the first of the named properties that the record has. -/
def firstPresent (r : JsVal) : List String → Option JsVal
  | [] => none
  | k :: more =>
    match presentField r k with
    | some v => some v
    | none => firstPresent r more

/-- The finite number that a coordinate value converts to, if there is one:
a finite number is itself, `true` is 1 and `false` is 0, a non-empty string is
the number it spells when that is finite, an array or an object converts
through its string form; the empty string, a surrogate half, NaN and the
infinities convert to none. -/
def finiteValue (host : Host) : JsVal → Option ℚ
  | .undefined => none
  | .null => none
  | .bool true => some 1
  | .bool false => some 0
  | .num n => n.finite?
  | .str s => if s = "" then none else (host.stringToNumber s).finite?
  | .half _ => none
  | .arr items => (host.stringToNumber (host.toStr (.arr items))).finite?
  | .obj props => (host.stringToNumber (host.toStr (.obj props))).finite?

/-- The valid latitude of a record: the finite number its `latitude` converts
to, or its `lat` when it has no `latitude`. -/
def validLatitude (host : Host) (r : JsVal) : Option ℚ :=
  (firstPresent r ["latitude", "lat"]).bind (finiteValue host)

/-- The valid longitude of a record: the finite number its `longitude`
converts to, or its `lng` when it has no `longitude`, or its `lon` when it has
neither. -/
def validLongitude (host : Host) (r : JsVal) : Option ℚ :=
  (firstPresent r ["longitude", "lng", "lon"]).bind (finiteValue host)

/-- A record has a valid latitude and a valid longitude. -/
def hasValidLatLon (host : Host) (r : JsVal) : Bool :=
  (validLatitude host r).isSome && (validLongitude host r).isSome

/-- The four fields of a response payload. -/
def payloadFields : List String := ["output", "table_data", "geo_data", "sql_query"]

/-- The success payload
`{"output":"Hello","table_data":null,"geo_data":null,"sql_query":null}`. -/
def helloPayload : JsVal :=
  .obj [("output", .str "Hello"), ("table_data", .null), ("geo_data", .null),
    ("sql_query", .null)]

/-- The last entry of the log, if any. -/
def lastMessage (s : AppState) : Option Message := s.messages.getLast?

/-! ## Properties of the operators -/

theorem getProp_jsOr_empty (p : JsVal) (k : String) :
    getProp (jsOr p (.obj [])) k = getProp p k := by
  cases p with
  | bool b => cases b <;> simp [jsOr, truthy, getProp, lookupProp]
  | num n => by_cases h : n.truthy = true <;> simp [jsOr, truthy, getProp, lookupProp, h]
  | str s => by_cases h : s = "" <;> simp [jsOr, truthy, getProp, lookupProp, h]
  | _ => simp [jsOr, truthy, getProp, lookupProp]

theorem lookupProp_setProp_same (k : String) (v : JsVal) (ps : List (String × JsVal)) :
    lookupProp k (setProp k v ps) = v := by
  induction ps with
  | nil => simp [setProp, lookupProp]
  | cons kv rest ih =>
    obtain ⟨k', v'⟩ := kv
    by_cases h : k' = k <;> simp [setProp, lookupProp, h, ih]

theorem lookupProp_setProp_other (k k' : String) (v : JsVal) (ps : List (String × JsVal))
    (hne : k' ≠ k) : lookupProp k (setProp k' v ps) = lookupProp k ps := by
  induction ps with
  | nil => simp [setProp, lookupProp, hne]
  | cons kv rest ih =>
    obtain ⟨k1, v1⟩ := kv
    by_cases h : k1 = k'
    · subst h
      simp [setProp, lookupProp, hne]
    · by_cases h2 : k1 = k
      · subst h2
        simp [setProp, lookupProp, h]
      · simp [setProp, lookupProp, h, h2, ih]

theorem lookupProp_eq_undefined_of_not_mem (k : String) (ps : List (String × JsVal))
    (h : ∀ kv ∈ ps, kv.1 ≠ k) : lookupProp k ps = .undefined := by
  induction ps with
  | nil => rfl
  | cons kv rest ih =>
    obtain ⟨k', v'⟩ := kv
    have h1 : k' ≠ k := h (k', v') (by simp)
    have h2 : ∀ kv ∈ rest, kv.1 ≠ k := fun kv hkv => h kv (by simp [hkv])
    simp [lookupProp, h1, ih h2]

theorem dropWhile_all_iff (p : Char → Bool) (l : List Char) :
    (∀ c ∈ l.dropWhile p, p c = true) ↔ ∀ c ∈ l, p c = true := by
  constructor
  · intro h
    by_contra hcon
    have hne : l.dropWhile p ≠ [] := by
      intro h0
      exact hcon (List.dropWhile_eq_nil_iff.mp h0)
    have hhead := List.head_dropWhile_not p l hne
    have := h _ (List.head_mem hne)
    simp [hhead] at this
  · intro h c hc
    exact h c ((List.dropWhile_suffix p).subset hc)

theorem trim_eq_empty_iff (s : String) :
    trim s = "" ↔ ∀ c ∈ s.data, isTrimChar c = true := by
  unfold trim
  rw [String.ext_iff]
  show ((s.data.dropWhile isTrimChar).reverse.dropWhile isTrimChar).reverse = [] ↔ _
  rw [List.reverse_eq_nil_iff, List.dropWhile_eq_nil_iff]
  simp only [List.mem_reverse]
  exact dropWhile_all_iff isTrimChar s.data

theorem trim_ne_empty_iff (s : String) :
    trim s ≠ "" ↔ ∃ c ∈ s.data, isTrimChar c = false := by
  rw [Ne, trim_eq_empty_iff]
  push_neg
  simp

/-! ## Properties of the session controller -/

theorem afterAwait_eq (viteApiBase : Option String) (outcome : Outcome) (s : AppState) :
    afterAwait viteApiBase outcome s = .ok
      { messages := s.messages ++ [match outcome with
          | .resolved data => assistantMessage data
          | .rejected error => errorMessage viteApiBase error]
        isLoading := false
        layoutMode := s.layoutMode } := by
  cases outcome <;> rfl

theorem step_layoutMode (viteApiBase : Option String) (s : AppState) (e : Event) :
    (step viteApiBase s e).layoutMode = if e.isSubmit then .dashboard else s.layoutMode := by
  cases e with
  | submit prompt =>
    cases h : s.layoutMode <;> simp [step, beforeAwait, Event.isSubmit, h]
  | settle outcome =>
    simp [step, afterAwait_eq, Event.isSubmit]

theorem run_layoutMode (viteApiBase : Option String) (events : List Event) (s : AppState) :
    (run viteApiBase s events).layoutMode
      = if events.any Event.isSubmit then .dashboard else s.layoutMode := by
  induction events generalizing s with
  | nil => simp [run]
  | cons e rest ih =>
    have hrun : run viteApiBase s (e :: rest) = run viteApiBase (step viteApiBase s e) rest := rfl
    rw [hrun, ih, step_layoutMode]
    cases h : e.isSubmit <;> simp [h]

/-- C1: for every prompt `P`, log `L`, layout and backend outcome (resolved
with any body, or rejected), `handleSendMessage` run to completion from the
idle state with log `L` returns normally with log `L` followed by the user
message for `P` and then one assistant message, and with `isLoading` false.
The prompt need not be non-empty for this. -/
theorem handleSendMessage_appends_user_then_assistant (viteApiBase : Option String)
    (P : String) (L : List Message) (layout : LayoutMode) (outcome : Outcome) :
    ∃ s' a, handleSendMessage viteApiBase P outcome
        { messages := L, isLoading := false, layoutMode := layout } = .ok s'
      ∧ s'.messages = L ++ [{ role := .user, content := .str P }, a]
      ∧ a.role = .assistant
      ∧ s'.isLoading = false := by
  refine ⟨_, (match outcome with
      | .resolved data => assistantMessage data
      | .rejected error => errorMessage viteApiBase error),
    afterAwait_eq viteApiBase outcome _, ?_, ?_, rfl⟩
  · simp [beforeAwait, userMessage]
  · cases outcome <;> rfl

/-- C2: `ChatInput.handleSubmit` calls `onSendMessage` exactly when the input
is non-empty after trimming (it has a character that `trim` keeps) and
`isLoading` is false; it then calls it once, with the raw input; otherwise
nothing is called, so the log length and the busy flag of the controller stay
as they are. -/
theorem handleSubmit_calls_iff_nonblank_and_idle (s : String) (b : Bool) :
    (ChatInput.handleSubmit recordCall b s []).1
        = (if trim s ≠ "" ∧ b = false then [s] else [])
    ∧ (trim s ≠ "" ↔ ∃ c ∈ s.data, isTrimChar c = false)
    ∧ (∀ (σ : Type) (f : String → σ → σ) (w : σ),
        ChatInput.handleSubmit f b s w
          = if trim s ≠ "" ∧ b = false then (f s w, "") else (w, s))
    ∧ (∀ app : AppState,
        (ChatInput.handleSubmit beforeAwait b s app).1.messages.length
            = app.messages.length + (if trim s ≠ "" ∧ b = false then 1 else 0)
        ∧ (ChatInput.handleSubmit beforeAwait b s app).1.isLoading
            = (if trim s ≠ "" ∧ b = false then true else app.isLoading)) := by
  have hgen : ∀ (σ : Type) (f : String → σ → σ) (w : σ),
      ChatInput.handleSubmit f b s w
        = if trim s ≠ "" ∧ b = false then (f s w, "") else (w, s) := by
    intro σ f w
    unfold ChatInput.handleSubmit
    by_cases h1 : trim s = "" <;> cases b <;> simp [truthy, h1]
  refine ⟨?_, trim_ne_empty_iff s, hgen, ?_⟩
  · rw [hgen]
    split <;> simp [recordCall]
  · intro app
    rw [hgen]
    split <;> simp [beforeAwait]

/-- C3: after any sequence of submit calls and backend outcomes from the
state at mount, `layoutMode` is `initial` when the sequence has no submit and
`dashboard` when it has one or more; from a state with `layoutMode`
`dashboard` no sequence of events leads to another layout. -/
theorem layoutMode_initial_until_first_submit (viteApiBase : Option String)
    (events : List Event) :
    (run viteApiBase AppState.init events).layoutMode
        = (if events.any Event.isSubmit then LayoutMode.dashboard else LayoutMode.initial)
    ∧ ∀ (msgs : List Message) (busy : Bool) (more : List Event),
        (run viteApiBase { messages := msgs, isLoading := busy, layoutMode := .dashboard }
          more).layoutMode = LayoutMode.dashboard := by
  constructor
  · rw [run_layoutMode]
    rfl
  · intro msgs busy more
    rw [run_layoutMode]
    simp

/-- C4: for every payload object whose keys are among `output`, `table_data`,
`geo_data` and `sql_query` (any of them absent or null), the assistant message
built from the wrapped body `{data: P}` equals the one built from the flat
body `P`. -/
theorem assistantMessage_wrapped_eq_flat (props : List (String × JsVal))
    (hkeys : ∀ kv ∈ props, kv.1 ∈ payloadFields) :
    assistantMessage (.obj [("data", .obj props)]) = assistantMessage (.obj props) := by
  have hno : lookupProp "data" props = .undefined := by
    apply lookupProp_eq_undefined_of_not_mem
    intro kv hkv hEq
    have := hkeys kv hkv
    rw [hEq] at this
    simp [payloadFields] at this
  simp [assistantMessage, extractPayload, optProp, isNullish, getProp, lookupProp, nullishOr, hno]

/-- C4 at the payload with only `output: "Hi"`: the wrapped and the flat body
give the same message, whose content is `"Hi"`. -/
theorem assistantMessage_wrapped_eq_flat_witness :
    (∀ kv ∈ [("output", JsVal.str "Hi")], kv.1 ∈ payloadFields)
    ∧ assistantMessage (.obj [("data", .obj [("output", .str "Hi")])])
        = assistantMessage (.obj [("output", .str "Hi")])
    ∧ (assistantMessage (.obj [("output", .str "Hi")])).content = .str "Hi" :=
  ⟨by simp [payloadFields],
   assistantMessage_wrapped_eq_flat [("output", .str "Hi")] (by simp [payloadFields]),
   by simp [assistantMessage, extractPayload, optProp, isNullish, getProp, lookupProp,
     nullishOr, buildAssistantMessage, jsOr, truthy]⟩

/-! ## Properties of the assistant message -/

theorem buildAssistantMessage_fields (payload : JsVal) :
    buildAssistantMessage payload =
      { role := .assistant
        content := jsOr (getProp payload "output") (.str noResponseText)
        table_data := jsOr (getProp payload "table_data") .null
        geo_data := jsOr (getProp payload "geo_data") .null
        sql_query := jsOr (getProp payload "sql_query") (.str "") } := by
  simp [buildAssistantMessage, getProp_jsOr_empty]

theorem jsOr_of_nullish (a b : JsVal) (h : isNullish a = true) : jsOr a b = b := by
  cases a <;> simp [isNullish] at h <;> simp [jsOr, truthy]

/-- C5 fails for a payload whose `output` is the empty string: `output` is
present, and the content is the placeholder, not the output. -/
theorem content_differs_from_empty_output :
    isNullish (getProp (.obj [("output", .str "")]) "output") = false
    ∧ (assistantMessage (.obj [("output", .str "")])).content = .str noResponseText
    ∧ (assistantMessage (.obj [("output", .str "")])).content
        ≠ getProp (.obj [("output", .str "")]) "output" := by
  refine ⟨by simp [getProp, lookupProp, isNullish], by
    simp [assistantMessage, extractPayload, optProp, isNullish, getProp, lookupProp, nullishOr,
      buildAssistantMessage, jsOr, truthy], ?_⟩
  simp [assistantMessage, extractPayload, optProp, isNullish, getProp, lookupProp, nullishOr,
    buildAssistantMessage, jsOr, truthy, noResponseText]

/-- C5 as amended: the content of the assistant message is the payload
`output` when `output` is truthy (a non-empty string), and the placeholder
`"No response text from backend."` when `output` is absent, null or otherwise
falsy (the empty string). With `output: "Hello"` the content is `"Hello"`;
without `output` it is the placeholder. -/
theorem content_is_truthy_output_or_placeholder (data : JsVal) :
    (assistantMessage data).content
        = (if truthy (getProp (extractPayload data) "output")
            then getProp (extractPayload data) "output" else .str noResponseText)
    ∧ (∀ (s : String) (rest : List (String × JsVal)),
        (buildAssistantMessage (.obj (("output", .str s) :: rest))).content
          = if s = "" then .str noResponseText else .str s)
    ∧ (∀ rest : List (String × JsVal),
        (buildAssistantMessage (.obj (("output", .null) :: rest))).content
          = .str noResponseText)
    ∧ (assistantMessage (.obj [("output", .str "Hello")])).content = .str "Hello"
    ∧ (assistantMessage (.obj [])).content = .str noResponseText := by
  refine ⟨?_, ?_, ?_, ?_, ?_⟩
  · simp [assistantMessage, buildAssistantMessage_fields, jsOr]
  · intro s rest
    by_cases h : s = "" <;>
      simp [buildAssistantMessage_fields, jsOr, getProp, lookupProp, truthy, h]
  · intro rest
    simp [buildAssistantMessage_fields, jsOr, getProp, lookupProp, truthy]
  · simp [assistantMessage, extractPayload, optProp, isNullish, getProp, lookupProp, nullishOr,
      buildAssistantMessage, jsOr, truthy]
  · simp [assistantMessage, extractPayload, optProp, isNullish, getProp, lookupProp, nullishOr,
      buildAssistantMessage, jsOr, truthy]

/-- C6 fails at the payload with `output: "Hello"` and the three optional
fields null: the message has `sql_query` equal to the empty string, which is
neither null nor absent. -/
theorem sql_query_is_empty_string_not_null :
    (assistantMessage (.obj [("output", .str "Hello"), ("table_data", .null),
        ("geo_data", .null), ("sql_query", .null)])).sql_query = .str ""
    ∧ isNullish (assistantMessage (.obj [("output", .str "Hello"), ("table_data", .null),
        ("geo_data", .null), ("sql_query", .null)])).sql_query = false := by
  constructor <;>
    simp [assistantMessage, extractPayload, optProp, isNullish, getProp, lookupProp, nullishOr,
      buildAssistantMessage, jsOr, truthy]

/-- C6 as amended: for every success payload in which `table_data`,
`geo_data` and `sql_query` are each null or absent, the assistant message has
`table_data` null, `geo_data` null and `sql_query` the empty string, so none
of the three is truthy; the message is built for every payload (the
construction is a total function). -/
theorem optional_fields_default_when_missing (payload : JsVal)
    (ht : isNullish (getProp payload "table_data") = true)
    (hg : isNullish (getProp payload "geo_data") = true)
    (hq : isNullish (getProp payload "sql_query") = true) :
    (buildAssistantMessage payload).table_data = .null
    ∧ (buildAssistantMessage payload).geo_data = .null
    ∧ (buildAssistantMessage payload).sql_query = .str ""
    ∧ truthy (buildAssistantMessage payload).table_data = false
    ∧ truthy (buildAssistantMessage payload).geo_data = false
    ∧ truthy (buildAssistantMessage payload).sql_query = false := by
  simp [buildAssistantMessage_fields, jsOr_of_nullish, ht, hg, hq, truthy]

/-- C6 as amended, at the payload with `output: "Hello"` and the three
optional fields null: the content is `"Hello"`, `table_data` and `geo_data`
are null and `sql_query` is the empty string. -/
theorem optional_fields_default_when_missing_witness :
    (isNullish (getProp helloPayload "table_data") = true
      ∧ isNullish (getProp helloPayload "geo_data") = true
      ∧ isNullish (getProp helloPayload "sql_query") = true)
    ∧ (buildAssistantMessage helloPayload).content = .str "Hello"
    ∧ ((buildAssistantMessage helloPayload).table_data = .null
      ∧ (buildAssistantMessage helloPayload).geo_data = .null
      ∧ (buildAssistantMessage helloPayload).sql_query = .str ""
      ∧ truthy (buildAssistantMessage helloPayload).table_data = false
      ∧ truthy (buildAssistantMessage helloPayload).geo_data = false
      ∧ truthy (buildAssistantMessage helloPayload).sql_query = false) :=
  ⟨by simp [helloPayload, getProp, lookupProp, isNullish],
   by simp [helloPayload, buildAssistantMessage, getProp, lookupProp, jsOr, truthy],
   optional_fields_default_when_missing helloPayload
    (by simp [helloPayload, getProp, lookupProp, isNullish])
    (by simp [helloPayload, getProp, lookupProp, isNullish])
    (by simp [helloPayload, getProp, lookupProp, isNullish])⟩

/-! ## The failure path -/

theorem errorDescription_eq (error : JsError) :
    errorDescription error = error.message.getD "" := by
  unfold errorDescription
  cases h : error.message with
  | none => rfl
  | some m => by_cases hm : m = "" <;> simp [hm]

/-- C7 fails for a response that resolves with a body that is not JSON (the
raw text `not json`): the appended assistant message has the placeholder as
content, which is not the error template and does not contain the backend
address. -/
theorem malformed_body_gives_placeholder_not_error :
    ∃ s', handleSendMessage none "hi" (.resolved (.str "not json")) AppState.init = .ok s'
      ∧ lastMessage s' = some
          { role := .assistant
            content := .str noResponseText
            table_data := .null
            geo_data := .null
            sql_query := .str "" }
      ∧ ¬ ((API_BASE none).data <:+: noResponseText.data) := by
  refine ⟨_, afterAwait_eq _ _ _, ?_, ?_⟩
  · simp [lastMessage, assistantMessage, extractPayload, optProp, isNullish, getProp,
      nullishOr, buildAssistantMessage, jsOr, truthy, lookupProp]
  · decide

/-- C7 as amended: for every rejected request (a network error or a
non-success status), `handleSendMessage` returns normally and the appended
assistant message has as content the error template: it is non-empty, contains
the configured backend base address and the description of the failure
(`error.message`, empty when there is none), and the message has no
`table_data`, `geo_data` or `sql_query`. -/
theorem rejected_request_appends_error_message (viteApiBase : Option String)
    (prompt : String) (error : JsError) (s : AppState) :
    ∃ s' c, handleSendMessage viteApiBase prompt (.rejected error) s = .ok s'
      ∧ lastMessage s' = some { role := .assistant, content := .str c }
      ∧ c = "Error: Could not connect to the backend at " ++ API_BASE viteApiBase ++ "/chat. "
          ++ error.message.getD ""
      ∧ c ≠ ""
      ∧ (API_BASE viteApiBase).data <:+: c.data
      ∧ (error.message.getD "").data <:+: c.data
      ∧ s'.messages.length = s.messages.length + 2
      ∧ s'.isLoading = false := by
  refine ⟨_, _, afterAwait_eq _ _ _, ?_, rfl, ?_, ?_, ?_, ?_, rfl⟩
  · simp [lastMessage, errorMessage, API_URL, errorDescription_eq, String.append_assoc]
  · intro h
    have := congrArg String.length h
    simp [String.length_append] at this
    exact absurd this.1.1.1 (by decide)
  · exact ⟨"Error: Could not connect to the backend at ".data,
      ("/chat. " ++ error.message.getD "").data, by simp⟩
  · exact ⟨("Error: Could not connect to the backend at " ++ API_BASE viteApiBase
      ++ "/chat. ").data, [], by simp⟩
  · simp [beforeAwait]

/-! ## The map points -/

theorem numberIsFinite_num (n : JsNum) : numberIsFinite (.num n) = n.finite?.isSome := by
  cases n <;> rfl

theorem lookupProp_eq_lookup (k : String) (ps : List (String × JsVal)) :
    lookupProp k ps = (ps.lookup k).getD .undefined := by
  induction ps with
  | nil => rfl
  | cons kv rest ih =>
    obtain ⟨k', v'⟩ := kv
    by_cases h : k' = k
    · subst h
      simp [lookupProp]
    · have h' : (k == k') = false := by simpa using Ne.symm h
      simp [lookupProp, List.lookup_cons, h, h', ih]

theorem lookup_setProp (k k' : String) (v : JsVal) (ps : List (String × JsVal)) :
    (setProp k v ps).lookup k' = if k' = k then some v else ps.lookup k' := by
  induction ps with
  | nil =>
    by_cases h : k' = k
    · subst h
      simp [setProp]
    · have h' : (k' == k) = false := by simpa using h
      simp [setProp, List.lookup_cons, h, h']
  | cons kv rest ih =>
    obtain ⟨k1, v1⟩ := kv
    by_cases h1 : k1 = k
    · subst h1
      by_cases h : k' = k1
      · subst h
        simp [setProp]
      · have h' : (k' == k1) = false := by simpa using h
        simp [setProp, List.lookup_cons, h, h']
    · by_cases h : k' = k1
      · subst h
        have hne : ¬ k' = k := h1
        simp [setProp, h1, hne]
      · have h' : (k' == k1) = false := by simpa using h
        simp [setProp, List.lookup_cons, h1, h', ih]

theorem presentField_eq (r : JsVal) (k : String) :
    presentField r k = if isNullish (optProp r k) then none else some (optProp r k) := by
  cases r with
  | obj props =>
    simp only [presentField, optProp, isNullish, getProp, lookupProp_eq_lookup]
    cases h : props.lookup k with
    | none => simp [isNullish]
    | some v => cases v <;> simp [isNullish]
  | _ => simp [presentField, optProp, isNullish, getProp]

theorem finite_toNum (host : Host) (v : JsVal) :
    (toNum host v).finite? = finiteValue host v := by
  cases v with
  | bool b => cases b <;> simp [toNum, jsNumber, finiteValue, JsNum.finite?]
  | str s => by_cases h : s = "" <;> simp [toNum, jsNumber, finiteValue, JsNum.finite?, h]
  | _ => simp [toNum, jsNumber, finiteValue, JsNum.finite?]

theorem finiteValue_of_nullish (host : Host) (v : JsVal) (h : isNullish v = true) :
    finiteValue host v = none := by
  cases v <;> simp [isNullish] at h <;> rfl

theorem finite_toNum_rawLatitude (host : Host) (r : JsVal) :
    (toNum host (rawLatitude r)).finite? = validLatitude host r := by
  rw [finite_toNum]
  unfold validLatitude rawLatitude firstPresent firstPresent firstPresent nullishOr
  rw [presentField_eq, presentField_eq]
  by_cases h1 : isNullish (optProp r "latitude") = true
  · by_cases h2 : isNullish (optProp r "lat") = true
    · simp [h1, h2, finiteValue_of_nullish]
    · simp [h1, h2]
  · simp [h1]

theorem finite_toNum_rawLongitude (host : Host) (r : JsVal) :
    (toNum host (rawLongitude r)).finite? = validLongitude host r := by
  rw [finite_toNum]
  unfold validLongitude rawLongitude firstPresent firstPresent firstPresent firstPresent
    nullishOr
  rw [presentField_eq, presentField_eq, presentField_eq]
  by_cases h1 : isNullish (optProp r "longitude") = true
  · by_cases h2 : isNullish (optProp r "lng") = true
    · by_cases h3 : isNullish (optProp r "lon") = true
      · simp [h1, h2, h3, finiteValue_of_nullish]
      · simp [h1, h2, h3]
    · simp [h1, h2]
  · simp [h1]

theorem getProp_normalizeRecord_latitude (host : Host) (r : JsVal) :
    getProp (normalizeRecord host r) "latitude" = .num (toNum host (rawLatitude r)) := by
  show lookupProp "latitude" (setProp "longitude" _ (setProp "latitude" _ (spreadProps r))) = _
  rw [lookupProp_setProp_other _ _ _ _ (by decide), lookupProp_setProp_same]

theorem getProp_normalizeRecord_longitude (host : Host) (r : JsVal) :
    getProp (normalizeRecord host r) "longitude" = .num (toNum host (rawLongitude r)) := by
  show lookupProp "longitude" (setProp "longitude" _ _) = _
  rw [lookupProp_setProp_same]

theorem hasFiniteCoords_normalizeRecord (host : Host) (r : JsVal) :
    hasFiniteCoords (normalizeRecord host r) = hasValidLatLon host r := by
  unfold hasFiniteCoords hasValidLatLon
  rw [getProp_normalizeRecord_latitude, getProp_normalizeRecord_longitude,
    numberIsFinite_num, numberIsFinite_num, finite_toNum_rawLatitude,
    finite_toNum_rawLongitude]

theorem toNum_eq_of_finite (host : Host) (v : JsVal) (q : ℚ)
    (h : (toNum host v).finite? = some q) : toNum host v = .fin q := by
  cases hn : toNum host v <;> rw [hn] at h <;> simp [JsNum.finite?] at h
  rw [h]

theorem points_eq (host : Host) (records : List JsVal) :
    points host (.arr records)
      = .ok ((records.filter (hasValidLatLon host)).map (normalizeRecord host)) := by
  have hcomp : hasFiniteCoords ∘ normalizeRecord host = hasValidLatLon host := by
    funext r
    exact hasFiniteCoords_normalizeRecord host r
  simp [points, jsOr, truthy, List.filter_map, hcomp]

theorem normalizeRecord_object (host : Host) (props : List (String × JsVal)) (la lo : ℚ)
    (hla : validLatitude host (.obj props) = some la)
    (hlo : validLongitude host (.obj props) = some lo) :
    ∃ props', normalizeRecord host (.obj props) = .obj props'
      ∧ ∀ k : String, props'.lookup k
          = if k = "latitude" then some (.num (.fin la))
            else if k = "longitude" then some (.num (.fin lo))
            else props.lookup k := by
  refine ⟨_, rfl, fun k => ?_⟩
  rw [lookup_setProp, lookup_setProp,
    toNum_eq_of_finite host _ la ((finite_toNum_rawLatitude host _).trans hla),
    toNum_eq_of_finite host _ lo ((finite_toNum_rawLongitude host _).trans hlo)]
  by_cases h1 : k = "longitude"
  · subst h1
    simp
  · simp [h1, spreadProps]

/-- C8: for every `geo_data` sequence the points list is, in the original
order, one point for each record that has a valid latitude (the finite number
that `latitude` converts to, else `lat`) and a valid longitude (from
`longitude`, else `lng`, else `lon`); every other record is skipped. The point
of a record object is the record with `latitude` and `longitude` set to the
two numbers and every other property as it was. The records
`{"latitude":10,"longitude":20}` and `{"lat":"bad"}` give the first record
alone; `{"latitude":true,"longitude":false}`, `{"lat":1,"lng":2}` and
`{"lat":1,"lon":2}` each give a point; `latitude` and `longitude` come before
their aliases, and `lng` before `lon`; a record with an empty, null, missing
or non-finite coordinate, and a record that is not an object, give none. -/
theorem points_are_the_records_with_valid_coordinates (host : Host) (records : List JsVal) :
    points host (.arr records)
        = .ok ((records.filter (hasValidLatLon host)).map (normalizeRecord host))
    ∧ (∀ (props : List (String × JsVal)) (la lo : ℚ),
        validLatitude host (.obj props) = some la →
        validLongitude host (.obj props) = some lo →
        ∃ props', normalizeRecord host (.obj props) = .obj props'
          ∧ ∀ k : String, props'.lookup k
              = if k = "latitude" then some (.num (.fin la))
                else if k = "longitude" then some (.num (.fin lo))
                else props.lookup k)
    ∧ points host (.arr [.obj [("latitude", .num (.fin 10)), ("longitude", .num (.fin 20))],
          .obj [("lat", .str "bad")]])
        = .ok [.obj [("latitude", .num (.fin 10)), ("longitude", .num (.fin 20))]]
    ∧ points host (.arr [.obj [("latitude", .bool true), ("longitude", .bool false)]])
        = .ok [.obj [("latitude", .num (.fin 1)), ("longitude", .num (.fin 0))]]
    ∧ points host (.arr [.obj [("lat", .num (.fin 1)), ("lng", .num (.fin 2))]])
        = .ok [.obj [("lat", .num (.fin 1)), ("lng", .num (.fin 2)),
            ("latitude", .num (.fin 1)), ("longitude", .num (.fin 2))]]
    ∧ points host (.arr [.obj [("lat", .num (.fin 1)), ("lon", .num (.fin 2))]])
        = .ok [.obj [("lat", .num (.fin 1)), ("lon", .num (.fin 2)),
            ("latitude", .num (.fin 1)), ("longitude", .num (.fin 2))]]
    ∧ points host (.arr [.obj [("latitude", .num (.fin 5)), ("lat", .num (.fin 7)),
          ("longitude", .num (.fin 1)), ("lng", .num (.fin 2)), ("lon", .num (.fin 3))]])
        = .ok [.obj [("latitude", .num (.fin 5)), ("lat", .num (.fin 7)),
            ("longitude", .num (.fin 1)), ("lng", .num (.fin 2)), ("lon", .num (.fin 3))]]
    ∧ points host (.arr [.obj [("latitude", .null), ("lat", .num (.fin 7)),
          ("longitude", .null), ("lng", .num (.fin 2)), ("lon", .num (.fin 3))]])
        = .ok [.obj [("latitude", .num (.fin 7)), ("lat", .num (.fin 7)),
            ("longitude", .num (.fin 2)), ("lng", .num (.fin 2)), ("lon", .num (.fin 3))]]
    ∧ points host (.arr [.obj [("latitude", .str ""), ("longitude", .num (.fin 1))],
          .obj [("latitude", .num (.fin 1))],
          .obj [("longitude", .num (.fin 1))],
          .obj [("latitude", .null), ("longitude", .num (.fin 1))],
          .obj [("latitude", .num .nan), ("longitude", .num (.fin 1))],
          .obj [("latitude", .num (.fin 1)), ("longitude", .num .posInf)],
          .null,
          .str "abc"])
        = .ok [] := by
  refine ⟨points_eq host records, normalizeRecord_object host, ?_, ?_, ?_, ?_, ?_, ?_, ?_⟩
  iterate 6
    simp [points, jsOr, truthy, normalizeRecord, spreadProps, setProp, rawLatitude,
      rawLongitude, nullishOr, optProp, isNullish, getProp, lookupProp, toNum, jsNumber,
      hasFiniteCoords, numberIsFinite]
  rw [points_eq]
  simp [hasValidLatLon, validLatitude, validLongitude, firstPresent, presentField,
    finiteValue, JsNum.finite?, List.lookup_cons]

/-! ## The latest visualizable message and the table -/

theorem scanBack_spec (ms : List Message) (k : Nat) :
    (scanBack ms k = none ∧
        ∀ i m, i < k → ms[i]? = some m → isVisualizable m = false)
    ∨ ∃ i m, scanBack ms k = some m ∧ i < k ∧ ms[i]? = some m ∧ isVisualizable m = true
        ∧ ∀ j m', i < j → j < k → ms[j]? = some m' → isVisualizable m' = false := by
  induction k with
  | zero => exact Or.inl ⟨rfl, fun i m hi => absurd hi (Nat.not_lt_zero i)⟩
  | succ k ih =>
    have hstep : ∀ i, i < k + 1 → i < k ∨ i = k := fun i hi => by omega
    cases hk : ms[k]? with
    | none =>
      have hsb : scanBack ms (k + 1) = scanBack ms k := by simp [scanBack, hk]
      rw [hsb]
      rcases ih with ⟨hn, hall⟩ | ⟨i, m, hs, hi, hget, hviz, hlater⟩
      · refine Or.inl ⟨hn, fun i m hi hget => ?_⟩
        rcases hstep i hi with h | h
        · exact hall i m h hget
        · subst h
          rw [hk] at hget
          cases hget
      · refine Or.inr ⟨i, m, hs, by omega, hget, hviz, fun j m' hij hj hget' => ?_⟩
        rcases hstep j hj with h | h
        · exact hlater j m' hij h hget'
        · subst h
          rw [hk] at hget'
          cases hget'
    | some msg =>
      cases hv : isVisualizable msg with
      | true =>
        refine Or.inr ⟨k, msg, by simp [scanBack, hk, hv], by omega, hk, hv,
          fun j m' hij hj _ => by omega⟩
      | false =>
        have hsb : scanBack ms (k + 1) = scanBack ms k := by simp [scanBack, hk, hv]
        rw [hsb]
        rcases ih with ⟨hn, hall⟩ | ⟨i, m, hs, hi, hget, hviz, hlater⟩
        · refine Or.inl ⟨hn, fun i m hi hget => ?_⟩
          rcases hstep i hi with h | h
          · exact hall i m h hget
          · subst h
            rw [hk] at hget
            cases hget
            exact hv
        · refine Or.inr ⟨i, m, hs, by omega, hget, hviz, fun j m' hij hj hget' => ?_⟩
          rcases hstep j hj with h | h
          · exact hlater j m' hij h hget'
          · subst h
            rw [hk] at hget'
            cases hget'
            exact hv

theorem latestVizMsg_spec (log : List Message) :
    (latestVizMsg log = none ∧ ∀ m ∈ log, isVisualizable m = false)
    ∨ ∃ (i : Nat) (m : Message), latestVizMsg log = some m ∧ log[i]? = some m
        ∧ isVisualizable m = true
        ∧ ∀ (j : Nat) (m' : Message), i < j → log[j]? = some m' →
            isVisualizable m' = false := by
  rcases scanBack_spec log log.length with ⟨hn, hall⟩ | ⟨i, m, hs, _, hget, hviz, hlater⟩
  · refine Or.inl ⟨hn, fun m hm => ?_⟩
    obtain ⟨i, hi, hget⟩ := List.getElem_of_mem hm
    exact hall i m hi (by rw [List.getElem?_eq_getElem hi, hget])
  · refine Or.inr ⟨i, m, hs, hget, hviz, fun j m' hij hget' => ?_⟩
    have hj : j < log.length := by
      by_contra hcon
      rw [List.getElem?_eq_none (by omega)] at hget'
      cases hget'
    exact hlater j m' hij hj hget'

theorem isVisualizable_iff (m : Message) :
    isVisualizable m = true
      ↔ m.role = .assistant ∧ (truthy m.table_data = true ∨ truthy m.geo_data = true) := by
  unfold isVisualizable jsOr
  by_cases hg : truthy m.geo_data = true
  · simp [hg]
  · simp [hg]

/-- C9: for every log, `latestVizMsg` returns the assistant message at the
greatest index that carries table data or geo data (a truthy `table_data` or
`geo_data`), and returns null exactly when no message of the log is such a
message; a user message or an assistant message without such data is never
returned, and the result is a function of the log alone. -/
theorem latestVizMsg_is_latest_visualizable (log : List Message) :
    (latestVizMsg log = none ↔ ∀ m ∈ log, isVisualizable m = false)
    ∧ (∀ m : Message, latestVizMsg log = some m ↔
        ∃ i : Nat, log[i]? = some m ∧ isVisualizable m = true
          ∧ ∀ (j : Nat) (m' : Message), i < j → log[j]? = some m' →
              isVisualizable m' = false)
    ∧ (∀ m : Message, isVisualizable m = true
        ↔ m.role = .assistant ∧ (truthy m.table_data = true ∨ truthy m.geo_data = true))
    ∧ (∀ log' : List Message, log' = log → latestVizMsg log' = latestVizMsg log) := by
  refine ⟨?_, ?_, isVisualizable_iff, fun log' h => by rw [h]⟩
  · constructor
    · intro hnone
      rcases latestVizMsg_spec log with ⟨_, hall⟩ | ⟨i, m, hs, _, _, _⟩
      · exact hall
      · rw [hnone] at hs
        cases hs
    · intro hall
      rcases latestVizMsg_spec log with ⟨hn, _⟩ | ⟨i, m, _, hget, hviz, _⟩
      · exact hn
      · have := hall m (List.getElem?_mem hget)
        rw [hviz] at this
        cases this
  · intro m
    constructor
    · intro hsome
      rcases latestVizMsg_spec log with ⟨hn, _⟩ | ⟨i, m0, hs, hget, hviz, hlater⟩
      · rw [hsome] at hn
        cases hn
      · rw [hsome] at hs
        cases hs
        exact ⟨i, hget, hviz, hlater⟩
    · rintro ⟨i, hget, hviz, hlater⟩
      rcases latestVizMsg_spec log with ⟨_, hall⟩ | ⟨i0, m0, hs, hget0, hviz0, hlater0⟩
      · have := hall m (List.getElem?_mem hget)
        rw [hviz] at this
        cases this
      · rcases Nat.lt_trichotomy i i0 with h | h | h
        · have := hlater i0 m0 h hget0
          rw [hviz0] at this
          cases this
        · subst h
          rw [hget] at hget0
          cases hget0
          exact hs
        · have := hlater0 i m h hget
          rw [hviz] at this
          cases this

theorem renderRows_of_objects (host : Host) (records : List (List (String × JsVal))) :
    renderRows host (records.map JsVal.obj)
      = .ok (records.map fun r => r.map fun kv => host.toStr kv.2) := by
  induction records with
  | nil => rfl
  | cons r rest ih =>
    simp [renderRows, renderRow, objectValues, spreadProps, ih]

theorem renderTable_of_nonempty_objects (host : Host) (first : List (String × JsVal))
    (rest : List (List (String × JsVal))) :
    renderTable host (.arr ((first :: rest).map JsVal.obj))
      = .ok { columns := first.map Prod.fst
              rows := (first :: rest).map fun r => r.map fun kv => host.toStr kv.2 } := by
  have h := renderRows_of_objects host (first :: rest)
  unfold renderTable
  simp only [List.map_cons] at h ⊢
  simp only [firstElem, objectKeys, spreadProps, h]

/-- C10 fails for the success payload `{"output":"ok","table_data":[]}`: the
appended assistant message has the empty array as `table_data`, it is the
latest visualizable message, and rendering the column reads the keys of the
missing first record and throws a `TypeError`. -/
theorem empty_table_data_breaks_render (host : Host) :
    ∃ s', handleSendMessage none "q"
        (.resolved (.obj [("output", .str "ok"), ("table_data", .arr [])])) AppState.init
          = .ok s'
      ∧ s'.isLoading = false
      ∧ latestVizMsg s'.messages = some
          { role := .assistant
            content := .str "ok"
            table_data := .arr []
            geo_data := .null
            sql_query := .str "" }
      ∧ firstElem (.arr []) = .undefined
      ∧ renderTable host (.arr []) = .error typeError
      ∧ renderColumn host s'.messages s'.isLoading = .error typeError := by
  refine ⟨_, afterAwait_eq _ _ _, rfl, ?_, rfl, rfl, ?_⟩
  · simp [latestVizMsg, scanBack, beforeAwait, AppState.init, userMessage, isVisualizable,
      assistantMessage, extractPayload, optProp, isNullish, getProp, lookupProp, nullishOr,
      buildAssistantMessage, jsOr, truthy]
  · simp [renderColumn, latestVizMsg, scanBack, beforeAwait, AppState.init, userMessage,
      isVisualizable, assistantMessage, extractPayload, optProp, isNullish, getProp,
      lookupProp, nullishOr, buildAssistantMessage, jsOr, truthy, mapPanel, tablePanel,
      renderTable, firstElem, objectKeys]

end AquamanV3
